import Mathlib

/-
Verification development for the error subsystem of cb-apigw
(restapigw/pkg/errors/error.go): the error-chain variants, the wrap
constructors, the root-cause traversal, the format-verb rendering and the
HTTP boundary handler. Go values are shallowly embedded: the dynamic error
value becomes an inductive type, `nil` becomes `Option.none`, the stack
captured by `callers()` / `debug.Stack()` at a call site becomes an explicit
argument, and the calls the handler makes into its logging and
JSON-rendering collaborators become the explicit lists of log entries and
responses it returns.
-/

namespace CbApigw.Errors

/-- Modelled from the spec: one call-frame descriptor (function name, file,
line) of a captured stack snapshot. The capture utility (`callers`, the
`stack` type) lives in a source file of pkg/errors that is not among the
given files; spec section 4.1 describes the snapshot as an ordered,
immutable sequence of such frames. -/
structure Frame where
  fname : String
  file : String
  line : Nat
deriving DecidableEq

/-- A captured stack snapshot: an ordered, immutable sequence of frames. -/
abbrev Stack := List Frame

/-- The error shapes of error.go: `fundamental` (msg + stack), `withStack`
(inner error + stack), `withMessage` (cause + msg), and the exported
sentinel struct `Error` (Code + Message). All four satisfy Go's `error`
interface; a `nil` Go error is `Option.none` over this type. -/
inductive GoErr where
  | fundamental (msg : String) (stack : Stack)
  | withStack (inner : GoErr) (stack : Stack)
  | withMessage (cause : GoErr) (msg : String)
  | Error (Code : Nat) (Message : String)
deriving DecidableEq

/-- Whether the dynamic shape of the value is the sentinel struct `*Error`:
exactly what the `case *Error:` arm of the type switch in `Handler`
matches. It looks only at the outermost constructor. -/
def GoErr.isSentinel : GoErr → Bool
  | .Error _ _ => true
  | _ => false

/-- The `Error()` methods of the four shapes (error.go lines 53-57, 93):
`fundamental` returns its msg, `withStack` delegates to the wrapped error,
`withMessage` returns `msg + ": " + cause.Error()`, and the sentinel
returns its Message. -/
def GoErr.errMsg : GoErr → String
  | .fundamental msg _ => msg
  | .withStack inner _ => inner.errMsg
  | .withMessage cause msg => msg ++ ": " ++ cause.errMsg
  | .Error _ message => message

/-- `New` (error.go line 114): a fundamental with the stack captured at the
call site, passed here explicitly. -/
def New (message : String) (st : Stack) : GoErr :=
  .fundamental message st

/-- `NewWithCode` (error.go line 122): the sentinel constructor. -/
def NewWithCode (code : Nat) (message : String) : GoErr :=
  .Error code message

/-- `Errorf` (error.go line 242): a fundamental whose msg is the already
formatted string (`fmt.Sprintf` is external to this core). -/
def Errorf (formatted : String) (st : Stack) : GoErr :=
  .fundamental formatted st

/-- `ErrRouteNotFound` (error.go line 19): HTTP 404 sentinel. -/
def ErrRouteNotFound : GoErr :=
  NewWithCode 404 "no API found with those values"

/-- `ErrInvalidID` (error.go line 21): HTTP 400 sentinel. -/
def ErrInvalidID : GoErr :=
  NewWithCode 400 "please provide a valid ID"

/-- `Wrap` (error.go line 158): nil stays nil, otherwise
`withStack(withMessage(err, message), stack-at-call-site)`. -/
def Wrap (err : Option GoErr) (message : String) (st : Stack) : Option GoErr :=
  match err with
  | none => none
  | some e => some (.withStack (.withMessage e message) st)

/-- `Wrapf` (error.go line 175): as `Wrap` with the formatted string
(`fmt.Sprintf` of format and args is external to this core). -/
def Wrapf (err : Option GoErr) (formatted : String) (st : Stack) : Option GoErr :=
  match err with
  | none => none
  | some e => some (.withStack (.withMessage e formatted) st)

/-- `WithStack` (error.go line 191): nil stays nil, otherwise a stack-only
annotation. -/
def WithStack (err : Option GoErr) (st : Stack) : Option GoErr :=
  match err with
  | none => none
  | some e => some (.withStack e st)

/-- `WithMessage` (error.go line 203): nil stays nil, otherwise a
message-only annotation. -/
def WithMessage (err : Option GoErr) (message : String) : Option GoErr :=
  match err with
  | none => none
  | some e => some (.withMessage e message)

/-- The loop body of `Cause` (error.go line 224) on a non-nil value: keep
following the `Cause()` accessor while the value has one. Only `withStack`
and `withMessage` implement the `causer` interface (lines 75, 94);
`fundamental` and the sentinel do not, so the loop stops there. -/
def causeOf : GoErr → GoErr
  | .withStack inner _ => causeOf inner
  | .withMessage cause _ => causeOf cause
  | e => e

/-- `Cause` (error.go line 224): nil is returned immediately without
traversal; otherwise the chain is walked to its root. -/
def Cause : Option GoErr → Option GoErr
  | none => none
  | some e => some (causeOf e)

/-- The format verbs the `Format` methods of error.go distinguish. -/
inductive Verb where
  | s
  | q
  | v
deriving DecidableEq

/-- Modelled from the spec: the full multi-line rendering a stack snapshot
produces under the verbose verb — for each frame a line pair
`function` then tab-indented `file:line`, each frame starting on a new
line (spec section 4.1). The `stack.Format` method lives in the pkg/errors
source file that is not among the given files. -/
def stackFmt (st : Stack) : String :=
  String.join (st.map (fun f => "\n" ++ f.fname ++ "\n\t" ++ f.file ++ ":" ++ toString f.line))

/-- One character of Go's `%q` quoting: backslash-escape the quote and the
backslash characters (codes 34 and 92), keep the rest. -/
def escChar (c : Char) : String :=
  if c = Char.ofNat 34 then String.mk [Char.ofNat 92, Char.ofNat 34]
  else if c = Char.ofNat 92 then String.mk [Char.ofNat 92, Char.ofNat 92]
  else String.mk [c]

/-- Go's `%q` rendering of a string (the `fmt.Fprintf(s, "%q", ...)` calls
of the `Format` methods): the string surrounded by quote characters with
its quote and backslash characters escaped. -/
def goQuote (s : String) : String :=
  String.mk [Char.ofNat 34] ++ String.join (s.data.map escChar) ++ String.mk [Char.ofNat 34]

/-- The `Format` methods of error.go (lines 59-73, 77-91, 96-108) as one
function of the value, the verb, and the plus flag.
`fundamental`: `%+v` writes msg then the stack; `%v` falls through to `%s`
which writes msg; `%q` writes the quoted msg.
`withStack`: `%+v` recursively renders `Cause()` verbosely, then its own
stack; `%v`/`%s` write `Error()`; `%q` writes the quoted `Error()`.
`withMessage`: `%+v` renders `Cause()` verbosely followed by a newline,
then its msg; `%v` falls through to the shared `%s`/`%q` arm which writes
`Error()` unquoted.
The sentinel has no `Format` method, so Go's fmt uses its `Error()` result
for `%v`/`%s` and the quoted result for `%q`. -/
def format : GoErr → Verb → Bool → String
  | .fundamental msg st, .v, true => msg ++ stackFmt st
  | .fundamental msg _, .v, false => msg
  | .fundamental msg _, .s, _ => msg
  | .fundamental msg _, .q, _ => goQuote msg
  | .withStack inner st, .v, true => format inner .v true ++ stackFmt st
  | .withStack inner st, .v, false => (GoErr.withStack inner st).errMsg
  | .withStack inner st, .s, _ => (GoErr.withStack inner st).errMsg
  | .withStack inner st, .q, _ => goQuote (GoErr.withStack inner st).errMsg
  | .withMessage cause msg, .v, true => format cause .v true ++ "\n" ++ msg
  | .withMessage cause msg, .v, false => (GoErr.withMessage cause msg).errMsg
  | .withMessage cause msg, .s, _ => (GoErr.withMessage cause msg).errMsg
  | .withMessage cause msg, .q, _ => (GoErr.withMessage cause msg).errMsg
  | .Error _ message, .q, _ => goQuote message
  | .Error _ message, _, _ => message

/-- A structured-log field value: the handler logs ints (the sentinel
code), strings (messages, stack dumps), a raw non-error value, or the nil
interface value. -/
inductive FieldVal where
  | natVal (n : Nat)
  | strVal (s : String)
  | rawVal (s : String)
  | nilField
deriving DecidableEq

/-- Log severities the handler uses: `Info` and `Error`. -/
inductive Severity where
  | info
  | error
deriving DecidableEq

/-- Modelled from the spec: one emission of the logging collaborator — a
severity, the accumulated key/value fields of the scope, and the log
message (spec section 6, `withField(key, value)... .log(severity,
message)`). The pkg/logging package is not among the given files; per spec
section 4.4 step 1, a `WithField` call attaches the field to the logging
scope for the remainder of the handler call, so every entry emitted later
in the call carries it. -/
structure LogEntry where
  severity : Severity
  fields : List (String × FieldVal)
  message : String
deriving DecidableEq

/-- The payload the handler hands to the JSON-rendering collaborator:
the sentinel struct itself, an error-message string, a raw non-error
value, or the nil interface value. -/
inductive Payload where
  | sentinelPayload (code : Nat) (msg : String)
  | strPayload (s : String)
  | rawPayload (s : String)
  | nilPayload
deriving DecidableEq

/-- One call to `render.JSON(rw, status, payload)`: the HTTP status and
the payload written to the response stream. -/
structure Response where
  status : Nat
  payload : Payload
deriving DecidableEq

/-- The fragment of JSON values the rendered bodies use: strings, null,
and flat objects whose values are strings. -/
inductive Json where
  | str (s : String)
  | obj (fields : List (String × String))
  | null
deriving DecidableEq

/-- Modelled from the spec: the JSON serialization the rendering
collaborator (spec section 6, `writeJSON`) applies to each payload. The
sentinel struct marshals to an object with the single key `error` holding
Message, because its struct tags (error.go lines 44-47) exclude Code
(tag `json:"-"`) and name Message `error`; a string payload marshals to a
JSON string; the nil value marshals to JSON null. -/
def jsonOfPayload : Payload → Json
  | .sentinelPayload _ msg => .obj [("error", msg)]
  | .strPayload s => .str s
  | .rawPayload s => .str s
  | .nilPayload => .null

/-- The dynamic value `Handler` receives as its `err interface{}`
parameter: an error value, an arbitrary non-error value (carried by its
serialized form), or the nil interface value. -/
inductive GoValue where
  | errVal (e : GoErr)
  | raw (s : String)
  | nilVal
deriving DecidableEq

/-- Everything one `Handler` invocation emits: the log entries it sends to
the logging collaborator and the responses it writes through the
rendering collaborator, each in emission order. -/
structure HandlerOutput where
  logs : List LogEntry
  responses : List Response
deriving DecidableEq

/-- The logging scope after `Handler` line 129 attached the request
correlation id obtained from the request context. -/
def scopeFields (requestID : String) : List (String × FieldVal) :=
  [("request-id", FieldVal.strVal requestID)]

/-- The `case *Error:` arm of `Handler` (error.go lines 132-134): one
informational log entry with the fields code and error message, and one
rendered response with the sentinel's own status code and the sentinel
struct as payload. -/
def sentinelBranch (requestID : String) (code : Nat) (msg : String) : HandlerOutput :=
  { logs := [{ severity := .info,
               fields := scopeFields requestID ++
                 [("code", FieldVal.natVal code), ("error", FieldVal.strVal msg)],
               message := "Internal error handled" }],
    responses := [{ status := code, payload := .sentinelPayload code msg }] }

/-- The `case error:` arm of `Handler` (error.go lines 135-137): one
error-severity log entry carrying the failure's message and the freshly
captured `debug.Stack()` dump (passed here explicitly), and one rendered
response with status 500 and the message string as payload. -/
def errorBranch (requestID freshStack : String) (e : GoErr) : HandlerOutput :=
  { logs := [{ severity := .error,
               fields := scopeFields requestID ++
                 [("error", FieldVal.strVal e.errMsg), ("stack", FieldVal.strVal freshStack)],
               message := "Internal server error handled" }],
    responses := [{ status := 500, payload := .strPayload e.errMsg }] }

/-- `Handler` (error.go lines 127-142). The request correlation id and
the `debug.Stack()` dump are the explicit first arguments; the type
switch on the failure value picks the sentinel arm, the error arm, or the
default arm. A nil interface value matches no typed case and falls to the
default arm. -/
def Handler (requestID freshStack : String) (err : GoValue) : HandlerOutput :=
  match err with
  | .errVal (.Error code message) => sentinelBranch requestID code message
  | .errVal (.fundamental msg st) => errorBranch requestID freshStack (.fundamental msg st)
  | .errVal (.withStack inner st) => errorBranch requestID freshStack (.withStack inner st)
  | .errVal (.withMessage cause msg) => errorBranch requestID freshStack (.withMessage cause msg)
  | .raw s =>
      { logs := [{ severity := .error,
                   fields := scopeFields requestID ++
                     [("error", FieldVal.rawVal s), ("stack", FieldVal.strVal freshStack)],
                   message := "Internal server error handled" }],
        responses := [{ status := 500, payload := .rawPayload s }] }
  | .nilVal =>
      { logs := [{ severity := .error,
                   fields := scopeFields requestID ++
                     [("error", FieldVal.nilField), ("stack", FieldVal.strVal freshStack)],
                   message := "Internal server error handled" }],
        responses := [{ status := 500, payload := .nilPayload }] }

/-- `NotFound` (error.go line 145): `Handler` applied to the
route-not-found sentinel. -/
def NotFound (requestID freshStack : String) : HandlerOutput :=
  Handler requestID freshStack (.errVal ErrRouteNotFound)

/-- `RecoveryHandler` (error.go line 150): forwards the recovered value
unchanged into `Handler`. -/
def RecoveryHandler (requestID freshStack : String) (err : GoValue) : HandlerOutput :=
  Handler requestID freshStack err

/-- Claim C4: each of the four wrap-style operations is nil-transparent —
wrapping the absent error returns the absent value unchanged. -/
theorem wrap_nil_transparency (m formatted : String) (st : Stack) :
    Wrap none m st = none ∧ Wrapf none formatted st = none ∧
      WithStack none st = none ∧ WithMessage none m = none :=
  ⟨rfl, rfl, rfl, rfl⟩

/-- Claim C5: a message-annotated node's message is its own message, a
colon-space separator, then its cause's message; a stack-annotated node
delegates verbatim; the doubly wrapped chain over root "root" with
annotations "mid" and "outer" has message "outer: mid: root". -/
theorem message_composition (c e : GoErr) (m : String) (st s0 s1 s2 : Stack) :
    (GoErr.withMessage c m).errMsg = m ++ ": " ++ c.errMsg ∧
      (GoErr.withStack e st).errMsg = e.errMsg ∧
      (Wrap (Wrap (some (New "root" s0)) "mid" s1) "outer" s2).map GoErr.errMsg =
        some "outer: mid: root" := by
  refine ⟨rfl, rfl, ?_⟩
  rfl

/-- Claim C6: wrapping never changes the root cause — `Cause` of a wrapped
error equals `Cause` of the error; `Cause` of the absent value is the
absent value; `Cause` of a value exposing no cause accessor (a
fundamental, or the sentinel struct) is that value unchanged. -/
theorem cause_wrap_invariant (e : GoErr) (m fmsg smsg : String) (st sf : Stack) (code : Nat) :
    Cause (Wrap (some e) m st) = Cause (some e) ∧
      Cause none = none ∧
      Cause (some (.fundamental fmsg sf)) = some (.fundamental fmsg sf) ∧
      Cause (some (.Error code smsg)) = some (.Error code smsg) :=
  ⟨rfl, rfl, rfl, rfl⟩

/-- Claim C1: on a sentinel failure the handler writes exactly one
response carrying the sentinel's own status code and a body that
serializes to the object with the single key `error` holding the message,
and emits exactly one informational log entry with the fields code and
error message; for the route-not-found sentinel the status is 404 and the
body is the object binding `error` to "no API found with those values". -/
theorem handler_sentinel (rid fs : String) (code : Nat) (msg : String) :
    (Handler rid fs (.errVal (.Error code msg))).responses =
        [{ status := code, payload := .sentinelPayload code msg }] ∧
      jsonOfPayload (.sentinelPayload code msg) = .obj [("error", msg)] ∧
      (Handler rid fs (.errVal (.Error code msg))).logs =
        [{ severity := .info,
           fields := [("request-id", FieldVal.strVal rid),
             ("code", FieldVal.natVal code), ("error", FieldVal.strVal msg)],
           message := "Internal error handled" }] ∧
      (Handler rid fs (.errVal ErrRouteNotFound)).responses =
        [{ status := 404,
           payload := .sentinelPayload 404 "no API found with those values" }] :=
  ⟨rfl, rfl, rfl, rfl⟩

/-- Claim C2: every failure value whose outermost shape is not the
sentinel struct is rendered as HTTP 500; the handler never unwraps, so in
particular any `Wrap`-built chain whose root cause is a sentinel — its
outermost shape being a stack annotation — still yields 500. -/
theorem handler_no_unwrap (rid fs m : String) (st : Stack) (e : GoErr)
    (h : e.isSentinel = false) :
    (Handler rid fs (.errVal e)).responses.map Response.status = [500] ∧
      ∀ code smsg,
        (Handler rid fs
            (.errVal (.withStack (.withMessage (.Error code smsg) m) st))).responses.map
          Response.status = [500] := by
  constructor
  · cases e with
    | fundamental msg st2 => rfl
    | withStack inner st2 => rfl
    | withMessage cause msg => rfl
    | Error code message => exact absurd h (by simp [GoErr.isSentinel])
  · intro code smsg
    rfl

/-- Witness for C2 at a concrete chain wrapping the 404 sentinel: the
outermost shape is not the sentinel, and the rendered status is 500. -/
theorem handler_no_unwrap_witness :
    (Handler "req-1" "trace"
        (.errVal (.withStack
          (.withMessage (.Error 404 "no API found with those values") "wrapped") []))).responses.map
      Response.status = [500] :=
  (handler_no_unwrap "req-1" "trace" "wrapped" []
      (.withStack (.withMessage (.Error 404 "no API found with those values") "wrapped") [])
      (by decide)).1

/-- Claim C3: on a non-sentinel error the handler writes exactly one
response with status 500 whose body serializes to the bare message string
— not an object — and emits exactly one error-severity log entry carrying
the message and the freshly captured, non-empty process stack dump, which
is the recovery-time snapshot and not any stack embedded in the chain. -/
theorem handler_generic_error (rid fs : String) (e : GoErr)
    (h : e.isSentinel = false) (hfs : fs ≠ "") :
    (Handler rid fs (.errVal e)).responses =
        [{ status := 500, payload := .strPayload e.errMsg }] ∧
      jsonOfPayload (.strPayload e.errMsg) = .str e.errMsg ∧
      (∀ fields, Json.str e.errMsg ≠ Json.obj fields) ∧
      (Handler rid fs (.errVal e)).logs =
        [{ severity := .error,
           fields := [("request-id", FieldVal.strVal rid),
             ("error", FieldVal.strVal e.errMsg), ("stack", FieldVal.strVal fs)],
           message := "Internal server error handled" }] ∧
      fs ≠ "" := by
  cases e with
  | fundamental msg st => exact ⟨rfl, rfl, fun _ h2 => Json.noConfusion h2, rfl, hfs⟩
  | withStack inner st => exact ⟨rfl, rfl, fun _ h2 => Json.noConfusion h2, rfl, hfs⟩
  | withMessage cause msg => exact ⟨rfl, rfl, fun _ h2 => Json.noConfusion h2, rfl, hfs⟩
  | Error code message => exact absurd h (by simp [GoErr.isSentinel])

/-- Witness for C3 at the plain error "disk full" with a non-empty stack
dump: status 500 and body payload "disk full". -/
theorem handler_generic_error_witness :
    (Handler "req-1" "goroutine 1" (.errVal (.fundamental "disk full" []))).responses =
      [{ status := 500, payload := .strPayload "disk full" }] :=
  (handler_generic_error "req-1" "goroutine 1" (.fundamental "disk full" [])
      (by decide) (by decide)).1

/-- Claim C9: on a non-error failure value the handler writes exactly one
response with status 500 whose body is the raw value serialized directly,
and emits exactly one error-severity log entry carrying the raw value and
the freshly captured stack dump. -/
theorem handler_non_error_value (rid fs s : String) :
    (Handler rid fs (.raw s)).responses = [{ status := 500, payload := .rawPayload s }] ∧
      jsonOfPayload (.rawPayload s) = .str s ∧
      (Handler rid fs (.raw s)).logs =
        [{ severity := .error,
           fields := [("request-id", FieldVal.strVal rid),
             ("error", FieldVal.rawVal s), ("stack", FieldVal.strVal fs)],
           message := "Internal server error handled" }] :=
  ⟨rfl, rfl, rfl⟩

/-- Claim C10: the nil failure value matches no typed case of the switch
and falls to the non-error arm — the handler does not return silently but
writes exactly one response with status 500 whose body serializes to JSON
null, and emits exactly one error-severity log entry. -/
theorem handler_nil_value (rid fs : String) :
    (Handler rid fs .nilVal).responses = [{ status := 500, payload := .nilPayload }] ∧
      jsonOfPayload Payload.nilPayload = .null ∧
      (Handler rid fs .nilVal).logs =
        [{ severity := .error,
           fields := [("request-id", FieldVal.strVal rid),
             ("error", FieldVal.nilField), ("stack", FieldVal.strVal fs)],
           message := "Internal server error handled" }] :=
  ⟨rfl, rfl, rfl⟩

/-- Claim C7: verbose rendering of the doubly wrapped chain produced by
recursive formatting is, in order, the root's message, the root's stack,
then each wrapping message followed by the stack captured at that wrap
site, the outermost annotation last; plain, `%s` and non-verbose `%v`
rendering of any node is exactly its message, and `%q` rendering is
either the quoted or the bare message, never more. -/
theorem verbose_format_chain (s0 s1 s2 : Stack) (e : GoErr) :
    (Wrap (Wrap (some (New "root" s0)) "mid" s1) "outer" s2).map
        (fun er => format er .v true) =
      some ("root" ++ stackFmt s0 ++ "\n" ++ "mid" ++ stackFmt s1 ++
        "\n" ++ "outer" ++ stackFmt s2) ∧
      format e .s false = e.errMsg ∧
      format e .v false = e.errMsg ∧
      (format e .q false = goQuote e.errMsg ∨ format e .q false = e.errMsg) := by
  refine ⟨?_, ?_, ?_, ?_⟩
  · rfl
  · cases e <;> rfl
  · cases e <;> rfl
  · cases e with
    | fundamental msg st => exact Or.inl rfl
    | withStack inner st => exact Or.inl rfl
    | withMessage cause msg => exact Or.inr rfl
    | Error code message => exact Or.inl rfl

/-- Claim C8: the request correlation id attached to the logging scope at
the start of a handler invocation appears as the request-id field of
every log entry the invocation emits, on every classification branch. -/
theorem request_id_in_logs (rid fs : String) (v : GoValue) :
    ∀ l ∈ (Handler rid fs v).logs, ("request-id", FieldVal.strVal rid) ∈ l.fields := by
  intro l hl
  cases v with
  | errVal e =>
      cases e with
      | fundamental msg st =>
          simp only [Handler, errorBranch, List.mem_singleton] at hl
          subst hl
          simp [scopeFields]
      | withStack inner st =>
          simp only [Handler, errorBranch, List.mem_singleton] at hl
          subst hl
          simp [scopeFields]
      | withMessage cause msg =>
          simp only [Handler, errorBranch, List.mem_singleton] at hl
          subst hl
          simp [scopeFields]
      | Error code message =>
          simp only [Handler, sentinelBranch, List.mem_singleton] at hl
          subst hl
          simp [scopeFields]
  | raw s =>
      simp only [Handler, List.mem_singleton] at hl
      subst hl
      simp [scopeFields]
  | nilVal =>
      simp only [Handler, List.mem_singleton] at hl
      subst hl
      simp [scopeFields]

/-- Witness for C8 on the non-error branch: the single entry the handler
emits for the raw value "boom" carries the request-id field. -/
theorem request_id_in_logs_witness :
    ("request-id", FieldVal.strVal "req-9") ∈
      (LogEntry.mk Severity.error
        [("request-id", FieldVal.strVal "req-9"), ("error", FieldVal.rawVal "boom"),
          ("stack", FieldVal.strVal "trace")]
        "Internal server error handled").fields :=
  request_id_in_logs "req-9" "trace" (.raw "boom")
    (LogEntry.mk Severity.error
      [("request-id", FieldVal.strVal "req-9"), ("error", FieldVal.rawVal "boom"),
        ("stack", FieldVal.strVal "trace")]
      "Internal server error handled")
    (by decide)

end CbApigw.Errors
